import Mathlib

/-
Shallow embedding of the onkernel/hypeman diagnostic scripts:
  src/lib/devices/testdata/ollama-cuda/test-nvml.py
  src/lib/devices/testdata/ollama-cuda/test-cuda.py
  src/run_make.py
Native calls made through ctypes are modelled by an oracle environment that
fixes, for each entry point, either the integer status code it returns
(together with the value it writes into a by-reference output slot, where it
has one) or the Python exception it raises.  Every print statement is
modelled as one diagnostic constructor; `render` gives the exact text the
script prints for it.
-/

namespace Probe

/-- Outcome of one native call that returns an integer status code: the call
either returns a code or raises a Python exception carrying a message. -/
inductive CallOutcome where
| ret (code : Int)
| exn (msg : String)
deriving DecidableEq, Repr

/-- Outcome of a device-count query: the call either raises, or returns a
status code after writing a count into the by-reference output slot
(`α` is `Nat` for a c_uint slot and `Int` for a c_int slot). -/
inductive CountOutcome (α : Type) where
| ret (code : Int) (count : α)
| exn (msg : String)
deriving DecidableEq, Repr

end Probe

namespace Nvml

/-- One diagnostic line printed by `test_nvml` in test-nvml.py; the comment on
each constructor gives the source line of the print it models. -/
inductive Diag where
| loadOk (path : String)        -- line 19
| loadFail (path msg : String)  -- line 22
| noLib                         -- line 25
| initFail (code : Int)         -- line 32
| errName (nm : String)         -- line 43
| initOk                        -- line 45
| initExn (msg : String)        -- line 47
| countFail (code : Int)        -- line 55
| found (n : Nat)               -- line 57
| countExn (msg : String)       -- line 59
deriving DecidableEq, Repr

/-- Exact text test-nvml.py prints for each diagnostic. -/
def Diag.render : Diag → String
| .loadOk path => "✓ Loaded NVML from: " ++ path
| .loadFail path msg => "✗ Failed to load " ++ path ++ ": " ++ msg
| .noLib => "ERROR: Could not load NVML library"
| .initFail c => "✗ nvmlInit_v2 failed with code: " ++ toString c
| .errName nm => "   Error name: " ++ nm
| .initOk => "✓ nvmlInit_v2 succeeded"
| .initExn m => "✗ nvmlInit_v2 exception: " ++ m
| .countFail c => "✗ nvmlDeviceGetCount failed with code: " ++ toString c
| .found n => "✓ Found " ++ toString n ++ " GPU(s)"
| .countExn m => "✗ nvmlDeviceGetCount exception: " ++ m

/-- The `error_names` dictionary of test-nvml.py lines 35-42. -/
def error_names : Int → Option String
| 1 => some "NVML_ERROR_UNINITIALIZED"
| 2 => some "NVML_ERROR_INVALID_ARGUMENT"
| 3 => some "NVML_ERROR_NOT_SUPPORTED"
| 9 => some "NVML_ERROR_DRIVER_NOT_LOADED"
| 12 => some "NVML_ERROR_LIB_RM_VERSION_MISMATCH"
| 255 => some "NVML_ERROR_UNKNOWN"
| _ => none

/-- Python `error_names.get(ret, "UNKNOWN")` of test-nvml.py line 43. -/
def errorNameD (c : Int) : String := (error_names c).getD "UNKNOWN"

/-- Oracle for one run of test-nvml.py.  `load p` is what `ctypes.CDLL(p)`
does (returns a handle, or raises OSError with a message); the three call
outcomes are what the corresponding NVML entry points do when invoked;
`ldLibraryPath` and `devExists` model the read-only environment and
filesystem inspections of the `__main__` block. -/
structure Env where
  ldLibraryPath : Option String
  devExists : String → Bool
  load : String → Except String Unit
  initOutcome : Probe.CallOutcome
  countOutcome : Probe.CountOutcome Nat
  shutdownOutcome : Probe.CallOutcome

/-- Observable state accumulated by a run of `test_nvml`: the diagnostics in
print order, which candidate paths `ctypes.CDLL` was attempted on and which
one succeeded, and how many times each NVML entry point was invoked. -/
structure St where
  diags : List Diag
  loadAttempts : List String
  loadedPath : Option String
  initCalls : Nat
  countCalls : Nat
  shutdownCalls : Nat
deriving DecidableEq, Repr

/-- Initial state of a run. -/
def St0 : St := ⟨[], [], none, 0, 0, 0⟩

/-- The candidate-library loop, test-nvml.py lines 15-22: try `ctypes.CDLL`
on each path in order, record a diagnostic either way, and stop at the
first success. -/
def loadLoop (env : Env) : List String → St → St
| [], s => s
| p :: rest, s =>
  match env.load p with
  | .ok _ =>
      { s with loadAttempts := s.loadAttempts ++ [p],
               diags := s.diags ++ [.loadOk p],
               loadedPath := some p }
  | .error e =>
      loadLoop env rest
        { s with loadAttempts := s.loadAttempts ++ [p],
                 diags := s.diags ++ [.loadFail p e] }

/-- Lines 29-64 of test-nvml.py, executed once a library handle is bound:
`nvmlInit_v2` inside try/except, then `nvmlDeviceGetCount_v2` inside
try/except, then `nvmlShutdown` with no exception handler (so an exception
it raises propagates out of `test_nvml`, modelled as `Except.error`),
then `return count.value > 0`. -/
def afterLoad (env : Env) (s : St) : St × Except String Bool :=
  let s := { s with initCalls := s.initCalls + 1 }
  match env.initOutcome with
  | .exn m => ({ s with diags := s.diags ++ [.initExn m] }, Except.ok false)
  | .ret c =>
    if c ≠ 0 then
      ({ s with diags := s.diags ++ [.initFail c, .errName (errorNameD c)] }, Except.ok false)
    else
      let s : St := { s with diags := s.diags ++ [.initOk], countCalls := s.countCalls + 1 }
      match env.countOutcome with
      | .exn m => ({ s with diags := s.diags ++ [.countExn m] }, Except.ok false)
      | .ret rc n =>
        if rc ≠ 0 then
          ({ s with diags := s.diags ++ [.countFail rc] }, Except.ok false)
        else
          let s : St := { s with diags := s.diags ++ [.found n],
                                 shutdownCalls := s.shutdownCalls + 1 }
          match env.shutdownOutcome with
          | .exn m => (s, Except.error m)
          | .ret _ => (s, Except.ok (decide (0 < n)))

/-- The `test_nvml` function of test-nvml.py, parametrised by the candidate
path list the source hardcodes as `lib_paths` (see `lib_paths` below for the
source's literal).  The `Except.error` result models an exception escaping
`test_nvml` to its caller. -/
def test_nvml (env : Env) (paths : List String) : St × Except String Bool :=
  let s := loadLoop env paths St0
  match s.loadedPath with
  | none => ({ s with diags := s.diags ++ [.noLib] }, Except.ok false)
  | some _ => afterLoad env s

/-- The hardcoded candidate list of test-nvml.py lines 9-13. -/
def lib_paths : List String :=
  ["libnvidia-ml.so.1", "libnvidia-ml.so", "/usr/lib/x86_64-linux-gnu/libnvidia-ml.so.1"]

/-- The device-node paths checked at test-nvml.py line 73. -/
def dev_nodes : List String := ["/dev/nvidia0", "/dev/nvidiactl", "/dev/nvidia-uvm"]

/-- Line 68: display of the library search path variable. -/
def ldLine (x : Option String) : String := "LD_LIBRARY_PATH: " ++ x.getD "not set"

/-- Line 75: one device-node existence line. -/
def devLine (env : Env) (d : String) : String :=
  "  " ++ d ++ ": " ++ (if env.devExists d then "exists" else "MISSING")

/-- Lines 67-76: everything the `__main__` block prints before calling
`test_nvml`. -/
def nvmlHeader (env : Env) : List String :=
  ["=== NVML GPU Detection Test ===", ldLine env.ldLibraryPath, "", "Device nodes:"]
    ++ dev_nodes.map (devLine env) ++ [""]

/-- Line 80: the verdict line. -/
def nvmlVerdict (b : Bool) : String :=
  "Result: " ++ (if b then "GPU DETECTED" else "NO GPU FOUND")

/-- The `__main__` block of test-nvml.py, lines 66-81: the printed standard
output (as a list of lines) and the process exit code, or `Except.error` when
an exception escapes `test_nvml` uncaught. -/
def nvml_main (env : Env) : Except String (List String × Nat) :=
  match test_nvml env lib_paths with
  | (_, .error m) => .error m
  | (s, .ok b) =>
      .ok (nvmlHeader env ++ s.diags.map Diag.render ++ ["", nvmlVerdict b],
           if b then 0 else 1)

/-- The OSError message `env.load p` raises, or `""` when it loads. -/
def loadErrMsg (env : Env) (p : String) : String :=
  match env.load p with
  | .error e => e
  | .ok _ => ""

end Nvml

namespace Cuda

/-- One-decimal rendering of bytes / 1024^3, modelling the Python expression
`total_mem.value / (1024**3)` under a `:.1f` format at test-cuda.py line 54.
The tenths digit is computed in exact arithmetic with round half to even;
this coincides with the float formatting whenever the quotient is exactly
representable, as it is at every whole multiple of 2^30. -/
def fmtGB (bytes : Nat) : String :=
  let q := bytes * 10
  let d := 1024 ^ 3
  let t := q / d
  let r := q % d
  let tenths :=
    if 2 * r < d then t
    else if d < 2 * r then t + 1
    else if t % 2 = 0 then t else t + 1
  toString (tenths / 10) ++ "." ++ toString (tenths % 10)

/-- One diagnostic line printed by `test_cuda` in test-cuda.py; the comment on
each constructor gives the source line of the print it models. -/
inductive Diag where
| header                        -- line 9
| ldPath (x : Option String)    -- line 10
| loadOk                        -- line 15
| loadFail (msg : String)       -- line 17
| initFail (code : Int)         -- line 23
| initOk                        -- line 25
| countFail (code : Int)        -- line 31
| found (n : Int)               -- line 33
| devGetFail (code : Int)       -- line 42
| devName (nm : String)         -- line 48
| totalMem (bytes : Nat)        -- line 54
deriving DecidableEq, Repr

/-- Exact text test-cuda.py prints for each diagnostic. -/
def Diag.render : Diag → String
| .header => "=== CUDA Driver Test ==="
| .ldPath x => "LD_LIBRARY_PATH: " ++ x.getD "not set"
| .loadOk => "✓ Loaded libcuda.so"
| .loadFail m => "✗ Failed to load libcuda.so: " ++ m
| .initFail c => "✗ cuInit failed with code: " ++ toString c
| .initOk => "✓ cuInit succeeded"
| .countFail c => "✗ cuDeviceGetCount failed with code: " ++ toString c
| .found n => "✓ Found " ++ toString n ++ " CUDA device(s)"
| .devGetFail c => "✗ cuDeviceGet failed: " ++ toString c
| .devName nm => "✓ Device 0: " ++ nm
| .totalMem b => "✓ Total memory: " ++ fmtGB b ++ " GB"

/-- Oracle for one run of test-cuda.py.  `load` is what
`ctypes.CDLL("libcuda.so")` does; the call outcomes are what the CUDA driver
entry points do; `deviceName` and `memBytes` are the values the name and
total-memory calls write into their output buffers.  The count slot is a
`c_int`, hence `Int`. -/
structure Env where
  ldLibraryPath : Option String
  load : Except String Unit
  initOutcome : Probe.CallOutcome
  countOutcome : Probe.CountOutcome Int
  devGetOutcome : Probe.CallOutcome
  nameOutcome : Probe.CallOutcome
  deviceName : String
  memOutcome : Probe.CallOutcome
  memBytes : Nat

/-- The `test_cuda` function of test-cuda.py, lines 7-56.  Only the CDLL call
is inside a try/except (lines 13-18); every later native call is unguarded,
so an exception from any of them escapes `test_cuda`, modelled as
`Except.error`.  Lines 40-43: a nonzero `cuDeviceGet` code returns False.
Lines 46-48 and 52-54: the name and memory codes are consulted only to
decide whether to print. -/
def test_cuda (env : Env) : List Diag × Except String Bool :=
  let ds : List Diag := [.header, .ldPath env.ldLibraryPath]
  match env.load with
  | .error e => (ds ++ [.loadFail e], Except.ok false)
  | .ok _ =>
    let ds := ds ++ [.loadOk]
    match env.initOutcome with
    | .exn m => (ds, Except.error m)
    | .ret c =>
      if c ≠ 0 then (ds ++ [.initFail c], Except.ok false) else
      let ds := ds ++ [.initOk]
      match env.countOutcome with
      | .exn m => (ds, Except.error m)
      | .ret rc n =>
        if rc ≠ 0 then (ds ++ [.countFail rc], Except.ok false) else
        let ds := ds ++ [.found n]
        if n = 0 then (ds, Except.ok false) else
        match env.devGetOutcome with
        | .exn m => (ds, Except.error m)
        | .ret dc =>
          if dc ≠ 0 then (ds ++ [.devGetFail dc], Except.ok false) else
          match env.nameOutcome with
          | .exn m => (ds, Except.error m)
          | .ret nc =>
            let ds := if nc = 0 then ds ++ [.devName env.deviceName] else ds
            match env.memOutcome with
            | .exn m => (ds, Except.error m)
            | .ret mc =>
              let ds := if mc = 0 then ds ++ [.totalMem env.memBytes] else ds
              (ds, Except.ok true)

/-- Line 61: the verdict line. -/
def cudaVerdict (b : Bool) : String :=
  "Result: " ++ (if b then "CUDA WORKS" else "CUDA FAILED")

/-- The `__main__` block of test-cuda.py, lines 58-62: printed standard
output and exit code, or `Except.error` when an exception escapes
`test_cuda` uncaught. -/
def cuda_main (env : Env) : Except String (List String × Nat) :=
  match test_cuda env with
  | (_, .error m) => .error m
  | (ds, .ok b) =>
      .ok (ds.map Diag.render ++ ["", cudaVerdict b], if b then 0 else 1)

end Cuda

namespace RunMake

/-- Result of the `subprocess.run(["make", "oapi-generate"], ...)` call in
run_make.py: captured stdout, captured stderr, and the exit status. -/
structure MakeResult where
  stdout : String
  stderr : String
  returncode : Int
deriving DecidableEq, Repr

/-- Observable behaviour of one run of run_make.py after the chdir: the lines
printed to standard output, the lines printed to standard error, and the
process exit code. -/
structure RunOutcome where
  outLines : List String
  errLines : List String
  exitCode : Int
deriving DecidableEq, Repr

/-- run_make.py lines 9-18: print a banner and the subprocess stdout, echo
the subprocess stderr (with a STDERR: label, to standard error) only when it
is nonempty, exit with the subprocess return code when it is nonzero, and
otherwise print a completion message and exit 0. -/
def run_make (r : MakeResult) : RunOutcome :=
  let out := ["Running make oapi-generate...", r.stdout]
  let errs := if r.stderr ≠ "" then ["STDERR: " ++ r.stderr] else []
  if r.returncode ≠ 0 then
    { outLines := out ++ ["Command failed with exit code " ++ toString r.returncode],
      errLines := errs,
      exitCode := r.returncode }
  else
    { outLines := out ++ ["\nGeneration complete!"],
      errLines := errs,
      exitCode := 0 }

end RunMake

namespace Nvml

/-- Environment in which every candidate load raises OSError. -/
def allFailEnv : Env :=
  { ldLibraryPath := none, devExists := fun _ => false,
    load := fun _ => Except.error "cannot open shared object file",
    initOutcome := Probe.CallOutcome.ret 0,
    countOutcome := Probe.CountOutcome.ret 0 0,
    shutdownOutcome := Probe.CallOutcome.ret 0 }

/-- Environment in which only the candidate "libB.so" loads. -/
def pickEnv : Env :=
  { ldLibraryPath := none, devExists := fun _ => false,
    load := fun p => if p = "libB.so" then Except.ok () else Except.error "missing",
    initOutcome := Probe.CallOutcome.ret 0,
    countOutcome := Probe.CountOutcome.ret 0 2,
    shutdownOutcome := Probe.CallOutcome.ret 0 }

/-- Environment in which the library loads and `nvmlInit_v2` returns code 9. -/
def initFailEnv : Env :=
  { ldLibraryPath := none, devExists := fun _ => false,
    load := fun _ => Except.ok (),
    initOutcome := Probe.CallOutcome.ret 9,
    countOutcome := Probe.CountOutcome.ret 0 0,
    shutdownOutcome := Probe.CallOutcome.ret 0 }

/-- Environment in which everything succeeds but zero devices are reported. -/
def zeroEnv : Env :=
  { ldLibraryPath := none, devExists := fun _ => false,
    load := fun _ => Except.ok (),
    initOutcome := Probe.CallOutcome.ret 0,
    countOutcome := Probe.CountOutcome.ret 0 0,
    shutdownOutcome := Probe.CallOutcome.ret 0 }

/-- Environment in which initialization succeeds but the device-count query
returns a nonzero status code. -/
def countFailEnv : Env :=
  { ldLibraryPath := none, devExists := fun _ => false,
    load := fun _ => Except.ok (),
    initOutcome := Probe.CallOutcome.ret 0,
    countOutcome := Probe.CountOutcome.ret 1 0,
    shutdownOutcome := Probe.CallOutcome.ret 0 }

/-- Environment in which everything succeeds until `nvmlShutdown`, which
raises an exception. -/
def shutdownExnEnv : Env :=
  { ldLibraryPath := none, devExists := fun _ => false,
    load := fun _ => Except.ok (),
    initOutcome := Probe.CallOutcome.ret 0,
    countOutcome := Probe.CountOutcome.ret 0 1,
    shutdownOutcome := Probe.CallOutcome.exn "boom" }

end Nvml

namespace Cuda

/-- Environment in which two devices are reported but `cuDeviceGet` returns a
nonzero status code. -/
def devGetFailEnv : Env :=
  { ldLibraryPath := none, load := Except.ok (),
    initOutcome := Probe.CallOutcome.ret 0,
    countOutcome := Probe.CountOutcome.ret 0 2,
    devGetOutcome := Probe.CallOutcome.ret 1,
    nameOutcome := Probe.CallOutcome.ret 0, deviceName := "",
    memOutcome := Probe.CallOutcome.ret 0, memBytes := 0 }

/-- Environment in which two devices are reported and only the name query
fails (with status code 1). -/
def goodCudaEnv : Env :=
  { ldLibraryPath := some "/usr/lib", load := Except.ok (),
    initOutcome := Probe.CallOutcome.ret 0,
    countOutcome := Probe.CountOutcome.ret 0 2,
    devGetOutcome := Probe.CallOutcome.ret 0,
    nameOutcome := Probe.CallOutcome.ret 1, deviceName := "GeForce RTX",
    memOutcome := Probe.CallOutcome.ret 0, memBytes := 8589934592 }

end Cuda

namespace Nvml

/-- The candidate loop never touches the three call counters. -/
lemma loadLoop_calls (env : Env) (paths : List String) (s : St) :
    (loadLoop env paths s).initCalls = s.initCalls ∧
    (loadLoop env paths s).countCalls = s.countCalls ∧
    (loadLoop env paths s).shutdownCalls = s.shutdownCalls := by
  induction paths generalizing s with
  | nil => simp [loadLoop]
  | cons p rest ih =>
    cases hp : env.load p with
    | ok u => simp [loadLoop, hp]
    | error e => simpa [loadLoop, hp] using ih _

/-- When every candidate fails to load, the loop records every path as
attempted, appends one failure diagnostic per path, and changes nothing
else. -/
lemma loadLoop_all_fail (env : Env) (paths : List String) (s : St)
    (h : ∀ p ∈ paths, ∃ e, env.load p = Except.error e) :
    loadLoop env paths s =
      { s with loadAttempts := s.loadAttempts ++ paths,
               diags := s.diags ++ paths.map (fun p => Diag.loadFail p (loadErrMsg env p)) } := by
  induction paths generalizing s with
  | nil => simp [loadLoop]
  | cons p rest ih =>
    obtain ⟨e, he⟩ := h p (by simp)
    simp only [loadLoop, he]
    rw [ih _ (fun q hq => h q (by simp [hq]))]
    simp [loadErrMsg, he]

/-- A failing block of candidates at the front of the list can be run
first. -/
lemma loadLoop_append_fail (env : Env) (pre l : List String) (s : St)
    (h : ∀ p ∈ pre, ∃ e, env.load p = Except.error e) :
    loadLoop env (pre ++ l) s = loadLoop env l (loadLoop env pre s) := by
  induction pre generalizing s with
  | nil => simp [loadLoop]
  | cons p rest ih =>
    obtain ⟨e, he⟩ := h p (by simp)
    rw [List.cons_append]
    simp only [loadLoop, he]
    exact ih _ (fun q hq => h q (by simp [hq]))

/-- The post-load phase preserves the load log and only ever appends to the
diagnostics. -/
lemma afterLoad_shape (env : Env) (s : St) :
    (afterLoad env s).1.loadAttempts = s.loadAttempts ∧
    (afterLoad env s).1.loadedPath = s.loadedPath ∧
    ∃ tail, (afterLoad env s).1.diags = s.diags ++ tail := by
  unfold afterLoad
  cases env.initOutcome with
  | exn m => simp
  | ret c =>
    by_cases hc : c ≠ 0
    · simp [hc]
    · simp only [hc, if_false, ite_false]
      cases env.countOutcome with
      | exn m => simp [hc]
      | ret rc n =>
        by_cases hrc : rc ≠ 0
        · simp [hc, hrc]
        · cases env.shutdownOutcome with
          | exn m => simp [hc, hrc]
          | ret d => simp [hc, hrc]

/-- Reduction of `test_nvml` when no candidate loaded. -/
lemma test_nvml_none (env : Env) (paths : List String)
    (h : (loadLoop env paths St0).loadedPath = none) :
    test_nvml env paths =
      ({ loadLoop env paths St0 with
         diags := (loadLoop env paths St0).diags ++ [Diag.noLib] }, Except.ok false) := by
  simp only [test_nvml, h]

/-- Reduction of `test_nvml` when some candidate loaded. -/
lemma test_nvml_some (env : Env) (paths : List String) (q : String)
    (h : (loadLoop env paths St0).loadedPath = some q) :
    test_nvml env paths = afterLoad env (loadLoop env paths St0) := by
  simp only [test_nvml, h]

/-- As long as `nvmlShutdown` returns normally, the post-load phase returns
a boolean rather than propagating an exception. -/
lemma afterLoad_ok_of_shutdown_ret (env : Env) (s : St) (d : Int)
    (h : env.shutdownOutcome = Probe.CallOutcome.ret d) :
    ∃ b, (afterLoad env s).2 = Except.ok b := by
  unfold afterLoad
  cases hi : env.initOutcome with
  | exn m => exact ⟨false, by simp⟩
  | ret c =>
    by_cases hc : c ≠ 0
    · exact ⟨false, by simp [hc]⟩
    · cases hcnt : env.countOutcome with
      | exn m => exact ⟨false, by simp [hc]⟩
      | ret rc n =>
        by_cases hrc : rc ≠ 0
        · exact ⟨false, by simp [hc, hrc]⟩
        · exact ⟨decide (0 < n), by simp [hc, hrc, h]⟩

/-- C4: for every candidate list on which no load succeeds (the empty list
included), the probe returns succeeded = false with the no-library
diagnostic, no library is recorded as loaded, and the initialization,
device-count and shutdown entry points are each invoked zero times. -/
theorem c4_no_candidate (env : Env) (paths : List String)
    (h : ∀ p ∈ paths, ∃ e, env.load p = Except.error e) :
    (test_nvml env paths).2 = Except.ok false ∧
    Diag.noLib ∈ (test_nvml env paths).1.diags ∧
    (test_nvml env paths).1.initCalls = 0 ∧
    (test_nvml env paths).1.countCalls = 0 ∧
    (test_nvml env paths).1.shutdownCalls = 0 ∧
    (test_nvml env paths).1.loadedPath = none := by
  have hr := loadLoop_all_fail env paths St0 h
  have hnone : (loadLoop env paths St0).loadedPath = none := by rw [hr]; rfl
  rw [test_nvml_none env paths hnone, hr]
  simp [St0]

/-- C4 witness: instantiation at the empty candidate list. -/
theorem c4_witness :
    (test_nvml allFailEnv []).2 = Except.ok false ∧
    Diag.noLib ∈ (test_nvml allFailEnv []).1.diags ∧
    (test_nvml allFailEnv []).1.initCalls = 0 ∧
    (test_nvml allFailEnv []).1.countCalls = 0 ∧
    (test_nvml allFailEnv []).1.shutdownCalls = 0 ∧
    (test_nvml allFailEnv []).1.loadedPath = none :=
  c4_no_candidate allFailEnv [] (by simp)

/-- C5: candidates are attempted in list order, each load failure is recorded
as a diagnostic line, the first candidate that loads is recorded as the
loaded library, and the remaining candidates are never attempted. -/
theorem c5_first_load_wins (env : Env) (pre : List String) (good : String)
    (rest : List String)
    (hpre : ∀ p ∈ pre, ∃ e, env.load p = Except.error e)
    (hgood : env.load good = Except.ok ()) :
    (test_nvml env (pre ++ good :: rest)).1.loadAttempts = pre ++ [good] ∧
    (test_nvml env (pre ++ good :: rest)).1.loadedPath = some good ∧
    ∃ tail, (test_nvml env (pre ++ good :: rest)).1.diags =
      pre.map (fun p => Diag.loadFail p (loadErrMsg env p)) ++ [Diag.loadOk good] ++ tail := by
  have hload : loadLoop env (pre ++ good :: rest) St0 =
      ⟨pre.map (fun p => Diag.loadFail p (loadErrMsg env p)) ++ [Diag.loadOk good],
       pre ++ [good], some good, 0, 0, 0⟩ := by
    rw [loadLoop_append_fail env pre _ St0 hpre, loadLoop_all_fail env pre St0 hpre]
    simp only [loadLoop, hgood]
    simp [St0]
  have hsome : (loadLoop env (pre ++ good :: rest) St0).loadedPath = some good := by
    rw [hload]
  rw [test_nvml_some env _ good hsome, hload]
  obtain ⟨h1, h2, tail, h3⟩ := afterLoad_shape env
    ⟨pre.map (fun p => Diag.loadFail p (loadErrMsg env p)) ++ [Diag.loadOk good],
     pre ++ [good], some good, 0, 0, 0⟩
  exact ⟨h1, h2, tail, h3⟩

/-- C5 witness: one failing candidate, then the loading one, then one
candidate that is never attempted. -/
theorem c5_witness :
    (test_nvml pickEnv (["libA.so"] ++ "libB.so" :: ["libC.so"])).1.loadAttempts =
      ["libA.so"] ++ ["libB.so"] ∧
    (test_nvml pickEnv (["libA.so"] ++ "libB.so" :: ["libC.so"])).1.loadedPath =
      some "libB.so" ∧
    ∃ tail, (test_nvml pickEnv (["libA.so"] ++ "libB.so" :: ["libC.so"])).1.diags =
      ["libA.so"].map (fun p => Diag.loadFail p (loadErrMsg pickEnv p)) ++
        [Diag.loadOk "libB.so"] ++ tail :=
  c5_first_load_wins pickEnv ["libA.so"] "libB.so" ["libC.so"]
    (by intro p hp; simp at hp; subst hp; exact ⟨"missing", rfl⟩) rfl

end Nvml

namespace Nvml

/-- C2 counterexample: a run in which initialization succeeded (`nvmlInit_v2`
returned 0 and was invoked once) but the device-count query returned a
nonzero status, and `nvmlShutdown` was invoked zero times — the code reaches
the shutdown call only after a successful count query, refuting the claim
that shutdown is called whenever initialization succeeded. -/
theorem c2_cex :
    countFailEnv.initOutcome = Probe.CallOutcome.ret 0 ∧
    (test_nvml countFailEnv lib_paths).1.initCalls = 1 ∧
    (test_nvml countFailEnv lib_paths).1.shutdownCalls = 0 := ⟨rfl, rfl, rfl⟩

/-- C2 as amended: the shutdown entry point is called at most once, and it is
called exactly once precisely when a library loaded, initialization returned
code 0, and the device-count query returned status 0 without raising
(whatever count it reported). -/
theorem c2_amended (env : Env) (paths : List String) :
    (test_nvml env paths).1.shutdownCalls ≤ 1 ∧
    ((test_nvml env paths).1.shutdownCalls = 1 ↔
      ((test_nvml env paths).1.loadedPath ≠ none ∧
        env.initOutcome = Probe.CallOutcome.ret 0 ∧
        ∃ n, env.countOutcome = Probe.CountOutcome.ret 0 n)) := by
  have hcalls : (loadLoop env paths St0).shutdownCalls = 0 :=
    (loadLoop_calls env paths St0).2.2
  cases hl : (loadLoop env paths St0).loadedPath with
  | none => rw [test_nvml_none env paths hl]; simp [hl, hcalls]
  | some q =>
    rw [test_nvml_some env paths q hl]
    unfold afterLoad
    cases hi : env.initOutcome with
    | exn m => simp [hl, hcalls, hi]
    | ret c =>
      by_cases hc : c ≠ 0
      · simp [hl, hcalls, hi, hc]
      · simp only [not_not] at hc
        subst hc
        cases hcnt : env.countOutcome with
        | exn m => simp [hl, hcalls, hi, hcnt]
        | ret rc n =>
          by_cases hrc : rc ≠ 0
          · simp [hl, hcalls, hi, hcnt, hrc]
          · simp only [not_not] at hrc
            subst hrc
            cases hs : env.shutdownOutcome with
            | exn m => simp [hl, hcalls, hi, hcnt, hs]
            | ret d => simp [hl, hcalls, hi, hcnt, hs]

/-- C2 witness: instantiation at a run that reaches the shutdown call. -/
theorem c2_witness :
    (test_nvml zeroEnv lib_paths).1.shutdownCalls ≤ 1 ∧
    ((test_nvml zeroEnv lib_paths).1.shutdownCalls = 1 ↔
      ((test_nvml zeroEnv lib_paths).1.loadedPath ≠ none ∧
        zeroEnv.initOutcome = Probe.CallOutcome.ret 0 ∧
        ∃ n, zeroEnv.countOutcome = Probe.CountOutcome.ret 0 n)) :=
  c2_amended zeroEnv lib_paths

/-- C3 counterexample: a run in which every step succeeds but `nvmlShutdown`
raises an exception; the exception escapes `test_nvml` uncaught, refuting
the claim that the probe never raises an unhandled error. -/
theorem c3_cex :
    (test_nvml shutdownExnEnv lib_paths).2 = Except.error "boom" := rfl

/-- C3 as amended: load failures and exceptions or error codes from the
initialization and device-count calls are all caught and converted into a
failed result; provided the shutdown call returns normally, the probe
returns a boolean and raises nothing to its caller. -/
theorem c3_amended (env : Env) (paths : List String) (d : Int)
    (h : env.shutdownOutcome = Probe.CallOutcome.ret d) :
    ∃ b, (test_nvml env paths).2 = Except.ok b := by
  cases hl : (loadLoop env paths St0).loadedPath with
  | none => exact ⟨false, by rw [test_nvml_none env paths hl]⟩
  | some q =>
    rw [test_nvml_some env paths q hl]
    exact afterLoad_ok_of_shutdown_ret env _ d h

/-- C3 witness: instantiation at a concrete returning shutdown. -/
theorem c3_witness :
    ∃ b, (test_nvml zeroEnv lib_paths).2 = Except.ok b :=
  c3_amended zeroEnv lib_paths 0 rfl

/-- C6: when the library loads and `nvmlInit_v2` returns a nonzero code `c`,
the probe fails, the diagnostics contain the error-name line for the table
lookup of `c` (with default "UNKNOWN"), the process output contains that
rendered line and the exit code is 1; code 9 maps to the driver-not-loaded
label. -/
theorem c6_init_error (env : Env) (c : Int)
    (h1 : env.load "libnvidia-ml.so.1" = Except.ok ())
    (h2 : env.initOutcome = Probe.CallOutcome.ret c) (h3 : c ≠ 0) :
    (test_nvml env lib_paths).2 = Except.ok false ∧
    Diag.errName (errorNameD c) ∈ (test_nvml env lib_paths).1.diags ∧
    (∃ out, nvml_main env = Except.ok (out, 1) ∧
      Diag.render (Diag.errName (errorNameD c)) ∈ out) ∧
    errorNameD 9 = "NVML_ERROR_DRIVER_NOT_LOADED" ∧
    (∀ c2, error_names c2 = none → errorNameD c2 = "UNKNOWN") := by
  have ht : test_nvml env lib_paths =
      (⟨[Diag.loadOk "libnvidia-ml.so.1", Diag.initFail c, Diag.errName (errorNameD c)],
        ["libnvidia-ml.so.1"], some "libnvidia-ml.so.1", 1, 0, 0⟩,
       Except.ok false) := by
    simp [test_nvml, lib_paths, loadLoop, h1, afterLoad, h2, h3, St0]
  refine ⟨by rw [ht], by rw [ht]; simp, ?_, by rfl, fun c2 hc2 => by simp [errorNameD, hc2]⟩
  refine ⟨nvmlHeader env ++
    [Diag.loadOk "libnvidia-ml.so.1", Diag.initFail c,
     Diag.errName (errorNameD c)].map Diag.render ++ ["", nvmlVerdict false], ?_, ?_⟩
  · simp [nvml_main, ht]
  · simp [Diag.render]

/-- C6 witness: instantiation at initialization code 9. -/
theorem c6_witness :
    (test_nvml initFailEnv lib_paths).2 = Except.ok false ∧
    Diag.errName (errorNameD 9) ∈ (test_nvml initFailEnv lib_paths).1.diags ∧
    (∃ out, nvml_main initFailEnv = Except.ok (out, 1) ∧
      Diag.render (Diag.errName (errorNameD 9)) ∈ out) ∧
    errorNameD 9 = "NVML_ERROR_DRIVER_NOT_LOADED" ∧
    (∀ c2, error_names c2 = none → errorNameD c2 = "UNKNOWN") :=
  c6_init_error initFailEnv 9 rfl rfl (by decide)

/-- The zero-devices line can never be confused with a count-failure line:
they differ already at the first character. -/
lemma found_render_ne (x : String) :
    Diag.render (Diag.found 0) ≠ "✗ nvmlDeviceGetCount failed with code: " ++ x := by
  intro h
  have hd := congrArg String.data h
  rw [String.data_append] at hd
  have h1 := congrArg (List.take 1) hd
  rw [List.take_append_of_le_length (by decide)] at h1
  revert h1
  decide

/-- C7: when initialization succeeds and the device-count query returns count
0 with status 0, the probe fails, the diagnostics report zero devices found,
and no count-query failure (code or exception) diagnostic appears — and the
zero-devices line differs from every count-failure line as a string. -/
theorem c7_zero_devices (env : Env) (d : Int)
    (h1 : env.load "libnvidia-ml.so.1" = Except.ok ())
    (h2 : env.initOutcome = Probe.CallOutcome.ret 0)
    (h3 : env.countOutcome = Probe.CountOutcome.ret 0 0)
    (h4 : env.shutdownOutcome = Probe.CallOutcome.ret d) :
    (test_nvml env lib_paths).2 = Except.ok false ∧
    Diag.found 0 ∈ (test_nvml env lib_paths).1.diags ∧
    (∀ c, Diag.countFail c ∉ (test_nvml env lib_paths).1.diags) ∧
    (∀ m, Diag.countExn m ∉ (test_nvml env lib_paths).1.diags) ∧
    (∀ c, Diag.render (Diag.found 0) ≠ Diag.render (Diag.countFail c)) := by
  have ht : test_nvml env lib_paths =
      (⟨[Diag.loadOk "libnvidia-ml.so.1", Diag.initOk, Diag.found 0],
        ["libnvidia-ml.so.1"], some "libnvidia-ml.so.1", 1, 1, 1⟩, Except.ok false) := by
    simp [test_nvml, lib_paths, loadLoop, h1, afterLoad, h2, h3, h4, St0]
  refine ⟨by rw [ht], by rw [ht]; simp, fun c => by rw [ht]; simp, fun m => by rw [ht]; simp,
    fun c => found_render_ne (toString c)⟩

/-- C7 witness: instantiation at the zero-devices environment. -/
theorem c7_witness :
    (test_nvml zeroEnv lib_paths).2 = Except.ok false ∧
    Diag.found 0 ∈ (test_nvml zeroEnv lib_paths).1.diags ∧
    (∀ c, Diag.countFail c ∉ (test_nvml zeroEnv lib_paths).1.diags) ∧
    (∀ m, Diag.countExn m ∉ (test_nvml zeroEnv lib_paths).1.diags) ∧
    (∀ c, Diag.render (Diag.found 0) ≠ Diag.render (Diag.countFail c)) :=
  c7_zero_devices zeroEnv 0 rfl rfl rfl rfl

end Nvml

namespace Cuda

/-- C1 counterexample: a run of the CUDA probe in which the device-count
query reported 2 devices (status 0) but `cuDeviceGet` — the fetch of the
first device's handle, one of the steps the claim calls optional
enrichment — returned code 1, and the probe returned succeeded = false,
refuting the claim that a handle-fetch failure leaves succeeded at true. -/
theorem c1_cex :
    devGetFailEnv.countOutcome = Probe.CountOutcome.ret 0 2 ∧
    devGetFailEnv.devGetOutcome = Probe.CallOutcome.ret 1 ∧
    (test_cuda devGetFailEnv).2 = Except.ok false := ⟨rfl, rfl, rfl⟩

/-- C1 as amended: when the device-count query reports n > 0 and the fetch of
the first device's handle returns 0, the probe succeeds and its diagnostics
report n devices, whatever status codes the name and total-memory queries
return — a failed name query merely leaves the device-name line out of the
diagnostics.  (The handle fetch itself is not optional: see `c1_cex`.) -/
theorem c1_amended (env : Env) (n cn cm : Int)
    (hl : env.load = Except.ok ())
    (hi : env.initOutcome = Probe.CallOutcome.ret 0)
    (hc : env.countOutcome = Probe.CountOutcome.ret 0 n)
    (hn : 0 < n)
    (hd : env.devGetOutcome = Probe.CallOutcome.ret 0)
    (hnm : env.nameOutcome = Probe.CallOutcome.ret cn)
    (hm : env.memOutcome = Probe.CallOutcome.ret cm) :
    (test_cuda env).2 = Except.ok true ∧
    Diag.found n ∈ (test_cuda env).1 ∧
    (cn ≠ 0 → ∀ nm, Diag.devName nm ∉ (test_cuda env).1) := by
  have hne : ¬ n = 0 := by omega
  by_cases h1 : cn = 0 <;> by_cases h2 : cm = 0 <;>
    simp [test_cuda, hl, hi, hc, hne, hd, hnm, hm, h1, h2]

/-- C1 witness: two devices reported, name query failing with code 1. -/
theorem c1_witness :
    (test_cuda goodCudaEnv).2 = Except.ok true ∧
    Diag.found 2 ∈ (test_cuda goodCudaEnv).1 ∧
    ((1 : Int) ≠ 0 → ∀ nm, Diag.devName nm ∉ (test_cuda goodCudaEnv).1) :=
  c1_amended goodCudaEnv 2 1 0 rfl rfl rfl (by decide) rfl rfl rfl

/-- C9: for deviceMemoryBytes = 8589934592 (exactly 8 × 1024^3), the
one-decimal display of bytes / 1024^3 is the string "8.0", and the printed
total-memory line is exactly the corresponding text. -/
theorem c9_memory_display :
    fmtGB 8589934592 = "8.0" ∧
    Diag.render (Diag.totalMem 8589934592) = "✓ Total memory: 8.0 GB" := by
  exact ⟨rfl, rfl⟩

end Cuda

/-- C8: for every run of either script in which the probe function returns a
boolean (rather than raising), the process exit code is 0 exactly when the
probe succeeded and 1 exactly when it failed, and the printed report's last
line is the verdict line for that same boolean. -/
theorem c8_exit_verdict (cenv : Cuda.Env) (nenv : Nvml.Env) (b bn : Bool)
    (hc : (Cuda.test_cuda cenv).2 = Except.ok b)
    (hn : (Nvml.test_nvml nenv Nvml.lib_paths).2 = Except.ok bn) :
    (∃ out e, Cuda.cuda_main cenv = Except.ok (out, e) ∧
       (e = 0 ↔ b = true) ∧ (e = 1 ↔ b = false) ∧
       out.getLast? = some (Cuda.cudaVerdict b)) ∧
    (∃ out e, Nvml.nvml_main nenv = Except.ok (out, e) ∧
       (e = 0 ↔ bn = true) ∧ (e = 1 ↔ bn = false) ∧
       out.getLast? = some (Nvml.nvmlVerdict bn)) := by
  constructor
  · rcases hds : Cuda.test_cuda cenv with ⟨ds, r⟩
    rw [hds] at hc
    simp only at hc
    subst hc
    refine ⟨ds.map Cuda.Diag.render ++ ["", Cuda.cudaVerdict b], if b then 0 else 1,
      by simp [Cuda.cuda_main, hds], ?_, ?_, ?_⟩
    · cases b <;> simp
    · cases b <;> simp
    · rw [show (["", Cuda.cudaVerdict b] : List String) = [""] ++ [Cuda.cudaVerdict b] from rfl,
        ← List.append_assoc]
      exact List.getLast?_concat _
  · rcases hds : Nvml.test_nvml nenv Nvml.lib_paths with ⟨s, r⟩
    rw [hds] at hn
    simp only at hn
    subst hn
    refine ⟨Nvml.nvmlHeader nenv ++ s.diags.map Nvml.Diag.render ++ ["", Nvml.nvmlVerdict bn],
      if bn then 0 else 1, by simp [Nvml.nvml_main, hds], ?_, ?_, ?_⟩
    · cases bn <;> simp
    · cases bn <;> simp
    · rw [show (["", Nvml.nvmlVerdict bn] : List String) = [""] ++ [Nvml.nvmlVerdict bn] from rfl,
        ← List.append_assoc]
      exact List.getLast?_concat _

/-- C8 witness: a succeeding CUDA run and a zero-devices NVML run. -/
theorem c8_witness :
    (∃ out e, Cuda.cuda_main Cuda.goodCudaEnv = Except.ok (out, e) ∧
       (e = 0 ↔ true = true) ∧ (e = 1 ↔ true = false) ∧
       out.getLast? = some (Cuda.cudaVerdict true)) ∧
    (∃ out e, Nvml.nvml_main Nvml.zeroEnv = Except.ok (out, e) ∧
       (e = 0 ↔ false = true) ∧ (e = 1 ↔ false = false) ∧
       out.getLast? = some (Nvml.nvmlVerdict false)) :=
  c8_exit_verdict Cuda.goodCudaEnv Nvml.zeroEnv true false rfl rfl

namespace RunMake

/-- C10: the wrapper always prints the subprocess's standard output, prints
the labelled standard-error echo exactly when the captured stderr is
nonempty, exits with the subprocess's own return code whenever it is
nonzero, and on return code 0 continues and prints the completion
message, exiting 0. -/
theorem c10_wrapper (r : MakeResult) :
    r.stdout ∈ (run_make r).outLines ∧
    (run_make r).errLines = (if r.stderr ≠ "" then ["STDERR: " ++ r.stderr] else []) ∧
    (r.returncode ≠ 0 → (run_make r).exitCode = r.returncode) ∧
    (r.returncode = 0 → (run_make r).exitCode = 0 ∧
      "\nGeneration complete!" ∈ (run_make r).outLines) := by
  by_cases h : r.returncode = 0 <;> simp [run_make, h]

/-- C10 witness: a failing make run with nonempty stderr. -/
theorem c10_witness :
    ("out" : String) ∈ (run_make ⟨"out", "warning", 2⟩).outLines ∧
    (run_make ⟨"out", "warning", 2⟩).errLines =
      (if ("warning" : String) ≠ "" then ["STDERR: " ++ "warning"] else []) ∧
    ((2 : Int) ≠ 0 → (run_make ⟨"out", "warning", 2⟩).exitCode = 2) ∧
    ((2 : Int) = 0 → (run_make ⟨"out", "warning", 2⟩).exitCode = 0 ∧
      "\nGeneration complete!" ∈ (run_make ⟨"out", "warning", 2⟩).outLines) :=
  c10_wrapper ⟨"out", "warning", 2⟩

end RunMake
